import Mathlib

/-!
Shallow embedding of the gembin trading controller core
(src/lib/strategyConfig.ts, src/lib/strategy.ts, src/unnamed/part_001
pair selection, src/unnamed/part_004 auto-tune, src/unnamed/part_010
cron route: daily drawdown gate, two-phase execution pass and the
risk manager's checkOpenPositions).

JavaScript numbers are modelled as rationals; `undefined`/`null`
object fields are modelled as `Option`; values whose `Number(...)`
coercion yields `NaN` are modelled by a dedicated constructor.
All definitions are translated from the TypeScript source.
-/

namespace Gembin

/-- `Math.min` on two (non-NaN) numbers, written with an explicit
test so that every definition below evaluates inside the kernel. -/
def minQ (a b : ℚ) : ℚ := if a ≤ b then a else b

/-- `Math.max` on two (non-NaN) numbers. -/
def maxQ (a b : ℚ) : ℚ := if a ≤ b then b else a

/-- `Math.abs`. -/
def absQ (q : ℚ) : ℚ := if q < 0 then -q else q

theorem minQ_eq (a b : ℚ) : minQ a b = min a b := (min_def a b).symm

theorem maxQ_eq (a b : ℚ) : maxQ a b = max a b := (max_def a b).symm

theorem absQ_eq (q : ℚ) : absQ q = |q| := by
  unfold absQ
  rcases lt_or_le q 0 with h | h
  · rw [if_pos h, abs_of_neg h]
  · rw [if_neg (not_lt.mpr h), abs_of_nonneg h]

/-- `Math.min(Math.max(value, min), max)`, the clamp used both by
strategyConfig.ts `clamp` (on non-NaN input) and strategy.ts `clamp`. -/
def clampQ (v lo hi : ℚ) : ℚ := minQ (maxQ v lo) hi

theorem clampQ_eq (v lo hi : ℚ) : clampQ v lo hi = min (max v lo) hi := by
  rw [clampQ, minQ_eq, maxQ_eq]

/-- `Math.round` on a rational: JavaScript rounds half toward plus
infinity, `Math.round(x) = ⌊x + 1/2⌋`. -/
def roundJS (q : ℚ) : ℚ := ((⌊q + 1/2⌋ : ℤ) : ℚ)

/-- A raw JSON field feeding a clamped numeric config slot:
either absent (the object spread keeps the default), present but
coerced to `NaN` by `Number(...)`, or an actual number. -/
inductive RawVal
  | missing
  | nonNumeric
  | num (q : ℚ)
deriving DecidableEq, Repr

/-- A raw JSON field for the optional (never clamped)
`risk.trailingSlMultiplier`: absent keeps the default, an explicit
JSON `null` yields a falsy field, otherwise a number is copied through. -/
inductive RawOptVal
  | missing
  | nullish
  | num (q : ℚ)
deriving DecidableEq, Repr

/-- strategyConfig.ts numeric merge of one field: the object spread
takes the raw value when present (else the default), then
`clamp(value, lo, hi)` is applied, where `clamp` maps `NaN` to `lo`. -/
def mergeField (v : RawVal) (dflt lo hi : ℚ) : ℚ :=
  match v with
  | .missing => clampQ dflt lo hi
  | .nonNumeric => lo
  | .num q => clampQ q lo hi

/-- strategyConfig.ts `clampInt`: `Math.round(clamp(value, lo, hi))`. -/
def mergeFieldInt (v : RawVal) (dflt lo hi : ℚ) : ℚ :=
  match v with
  | .missing => roundJS (clampQ dflt lo hi)
  | .nonNumeric => roundJS lo
  | .num q => roundJS (clampQ q lo hi)

/-- TimeframeSet (only the numeric `lookback`; the three interval
strings carry no claim content). -/
structure TimeframeSet where
  lookback : ℚ
deriving DecidableEq, Repr

/-- RiskGuardrails of strategyConfig.ts. -/
structure RiskGuardrails where
  maxRiskPerTrade : ℚ
  minRiskPerTrade : ℚ
  maxDailyDrawdown : ℚ
  maxOpenPositions : ℚ
  maxPairs : ℚ
  minTradeUsd : ℚ
  slAtrMultiplier : ℚ
  tpAtrMultiplier : ℚ
  trailingSlMultiplier : Option ℚ
deriving DecidableEq, Repr

/-- IndicatorParams of strategyConfig.ts. -/
structure IndicatorParams where
  rsiBuy : ℚ
  rsiSell : ℚ
  bbPeriod : ℚ
  bbStdDev : ℚ
  stochK : ℚ
  stochD : ℚ
  macdFast : ℚ
  macdSlow : ℚ
  macdSignal : ℚ
deriving DecidableEq, Repr

/-- The `regime` block of StrategyConfig. -/
structure RegimeParams where
  volLow : ℚ
  volHigh : ℚ
  trendThresh : ℚ
  confidenceFloor : ℚ
deriving DecidableEq, Repr

/-- StrategyConfig of strategyConfig.ts (numeric content plus the
pair allowlist; `name` and the timeframe interval strings are omitted
as no claim concerns them). -/
structure StrategyConfig where
  pairs : List String
  allocationPerTrade : ℚ
  minTradeUsd : ℚ
  timeframe : TimeframeSet
  risk : RiskGuardrails
  indicators : IndicatorParams
  regime : RegimeParams
deriving DecidableEq, Repr

/-- DEFAULT_CONFIG of strategyConfig.ts. -/
def DEFAULT_CONFIG : StrategyConfig :=
  { pairs := ["BTC/USDT", "ETH/USDT", "BNB/USDT", "SOL/USDT", "XRP/USDT"]
    allocationPerTrade := 1/2
    minTradeUsd := 10
    timeframe := { lookback := 200 }
    risk :=
      { maxRiskPerTrade := 1/2
        minRiskPerTrade := 1/20
        maxDailyDrawdown := 3/20
        maxOpenPositions := 3
        maxPairs := 10
        minTradeUsd := 12
        slAtrMultiplier := 2
        tpAtrMultiplier := 4
        trailingSlMultiplier := some 2 }
    indicators :=
      { rsiBuy := 45
        rsiSell := 55
        bbPeriod := 20
        bbStdDev := 2
        stochK := 14
        stochD := 3
        macdFast := 12
        macdSlow := 26
        macdSignal := 9 }
    regime :=
      { volLow := 1/100
        volHigh := 1/20
        trendThresh := 3/10
        confidenceFloor := 2/5 } }

/-- Raw `risk` sub-object of a stored/suggested config. -/
structure RawRisk where
  maxRiskPerTrade : RawVal
  minRiskPerTrade : RawVal
  maxDailyDrawdown : RawVal
  maxOpenPositions : RawVal
  maxPairs : RawVal
  minTradeUsd : RawVal
  slAtrMultiplier : RawVal
  tpAtrMultiplier : RawVal
  trailingSlMultiplier : RawOptVal
deriving DecidableEq, Repr

/-- Raw `indicators` sub-object. -/
structure RawIndicators where
  rsiBuy : RawVal
  rsiSell : RawVal
  bbPeriod : RawVal
  bbStdDev : RawVal
  stochK : RawVal
  stochD : RawVal
  macdFast : RawVal
  macdSlow : RawVal
  macdSignal : RawVal
deriving DecidableEq, Repr

/-- Raw `regime` sub-object. -/
structure RawRegime where
  volLow : RawVal
  volHigh : RawVal
  trendThresh : RawVal
  confidenceFloor : RawVal
deriving DecidableEq, Repr

/-- Raw `timeframe` sub-object (numeric part). -/
structure RawTimeframe where
  lookback : RawVal
deriving DecidableEq, Repr

/-- The fields of a raw parsed config object. `pairs` is `some l`
when `Array.isArray(raw.pairs)` holds, with `l` its entries. -/
structure RawFields where
  pairs : Option (List String)
  allocationPerTrade : RawVal
  minTradeUsd : RawVal
  timeframe : RawTimeframe
  risk : RawRisk
  indicators : RawIndicators
  regime : RawRegime
deriving DecidableEq, Repr

/-- A raw stored value: `invalid` covers a missing setting, an
unparsable JSON string, or a parsed non-object (`!raw || typeof raw
!== "object"`), and `obj` a parsed object. -/
inductive RawConfig
  | invalid
  | obj (f : RawFields)
deriving DecidableEq, Repr

/-- strategyConfig.ts `mergeConfig`: spread raw fields over
DEFAULT_CONFIG and clamp every numeric field; the clamp bounds for
`risk.minRiskPerTrade` and `regime.volHigh` use the already-clamped
sibling as the dynamic upper, resp. lower, bound.
`risk.trailingSlMultiplier` is copied through the spread unclamped. -/
def mergeConfig (raw : RawConfig) : StrategyConfig :=
  match raw with
  | .invalid => DEFAULT_CONFIG
  | .obj f =>
    let maxRisk := mergeField f.risk.maxRiskPerTrade (1/2) (1/100) 1
    let volLow := mergeField f.regime.volLow (1/100) (1/1000) 5
    { pairs :=
        match f.pairs with
        | some ps => if ps.length > 0 then ps else DEFAULT_CONFIG.pairs
        | none => DEFAULT_CONFIG.pairs
      allocationPerTrade := mergeField f.allocationPerTrade (1/2) (1/100) 1
      minTradeUsd := mergeField f.minTradeUsd 10 5 1000
      timeframe := { lookback := mergeFieldInt f.timeframe.lookback 200 50 600 }
      risk :=
        { maxRiskPerTrade := maxRisk
          minRiskPerTrade := mergeField f.risk.minRiskPerTrade (1/20) (1/500) maxRisk
          maxDailyDrawdown := mergeField f.risk.maxDailyDrawdown (3/20) (1/20) (1/2)
          maxOpenPositions := mergeFieldInt f.risk.maxOpenPositions 3 1 20
          maxPairs := mergeFieldInt f.risk.maxPairs 10 1 50
          minTradeUsd := mergeField f.risk.minTradeUsd 12 5 1000
          slAtrMultiplier := mergeField f.risk.slAtrMultiplier 2 (1/2) 5
          tpAtrMultiplier := mergeField f.risk.tpAtrMultiplier 4 1 10
          trailingSlMultiplier :=
            match f.risk.trailingSlMultiplier with
            | .missing => some 2
            | .nullish => none
            | .num q => some q }
      indicators :=
        { rsiBuy := mergeField f.indicators.rsiBuy 45 5 80
          rsiSell := mergeField f.indicators.rsiSell 55 20 95
          bbPeriod := mergeFieldInt f.indicators.bbPeriod 20 5 120
          bbStdDev := mergeField f.indicators.bbStdDev 2 (1/2) 5
          stochK := mergeFieldInt f.indicators.stochK 14 2 50
          stochD := mergeFieldInt f.indicators.stochD 3 2 20
          macdFast := mergeFieldInt f.indicators.macdFast 12 2 50
          macdSlow := mergeFieldInt f.indicators.macdSlow 26 10 100
          macdSignal := mergeFieldInt f.indicators.macdSignal 9 2 30 }
      regime :=
        { volLow := volLow
          volHigh := mergeField f.regime.volHigh (1/20) volLow 10
          trendThresh := mergeField f.regime.trendThresh (3/10) (1/10) 1
          confidenceFloor := mergeField f.regime.confidenceFloor (2/5) (1/10) (9/10) } }

/-- `JSON.stringify` of a well-typed StrategyConfig read back by
`JSON.parse`: every numeric field reappears as a number; an
`undefined` `trailingSlMultiplier` key is dropped by stringify,
hence `missing` on re-parse. -/
def configToRaw (c : StrategyConfig) : RawConfig :=
  .obj
    { pairs := some c.pairs
      allocationPerTrade := .num c.allocationPerTrade
      minTradeUsd := .num c.minTradeUsd
      timeframe := { lookback := .num c.timeframe.lookback }
      risk :=
        { maxRiskPerTrade := .num c.risk.maxRiskPerTrade
          minRiskPerTrade := .num c.risk.minRiskPerTrade
          maxDailyDrawdown := .num c.risk.maxDailyDrawdown
          maxOpenPositions := .num c.risk.maxOpenPositions
          maxPairs := .num c.risk.maxPairs
          minTradeUsd := .num c.risk.minTradeUsd
          slAtrMultiplier := .num c.risk.slAtrMultiplier
          tpAtrMultiplier := .num c.risk.tpAtrMultiplier
          trailingSlMultiplier :=
            match c.risk.trailingSlMultiplier with
            | some t => .num t
            | none => .missing }
      indicators :=
        { rsiBuy := .num c.indicators.rsiBuy
          rsiSell := .num c.indicators.rsiSell
          bbPeriod := .num c.indicators.bbPeriod
          bbStdDev := .num c.indicators.bbStdDev
          stochK := .num c.indicators.stochK
          stochD := .num c.indicators.stochD
          macdFast := .num c.indicators.macdFast
          macdSlow := .num c.indicators.macdSlow
          macdSignal := .num c.indicators.macdSignal }
      regime :=
        { volLow := .num c.regime.volLow
          volHigh := .num c.regime.volHigh
          trendThresh := .num c.regime.trendThresh
          confidenceFloor := .num c.regime.confidenceFloor } }

/-- `saveStrategyConfig` stores `JSON.stringify(mergeConfig(config))`;
`getStrategyConfig` parses the stored string and merges again.  The
round trip on a raw input is therefore a double merge. -/
def saveThenLoad (raw : RawConfig) : StrategyConfig :=
  mergeConfig (configToRaw (mergeConfig raw))

/-! ## Signal scorer (src/lib/strategy.ts) -/

/-- TimeframeData of strategy.ts: the per-timeframe indicator
snapshot produced by `fetchTf`. -/
structure TimeframeData where
  rsi : ℚ
  macdHist : ℚ
  stochK : ℚ
  stochD : ℚ
  bbUpper : ℚ
  bbMiddle : ℚ
  bbLower : ℚ
  atrPct : ℚ
  last : ℚ
deriving DecidableEq, Repr

/-- strategy.ts `average`. -/
def average (nums : List ℚ) : ℚ :=
  if nums.length = 0 then 0 else nums.sum / nums.length

/-- strategy.ts `clamp01`. -/
def clamp01 (v : ℚ) : ℚ := clampQ v 0 1

/-- strategy.ts `normalizeRSI`. -/
def normalizeRSI (value : ℚ) : ℚ := clampQ ((value - 50) / 50) (-1) 1

/-- strategy.ts `normalizeStoch`. -/
def normalizeStoch (k d : ℚ) : ℚ := clampQ (((k + d) / 2 - 50) / 50) (-1) 1

/-- strategy.ts `scoreTrend`: amplified MACD histogram, clamped. -/
def scoreTrend (macdHist : ℚ) : ℚ := clampQ (macdHist * 5) (-1) 1

/-- strategy.ts `scoreVolatility`. -/
def scoreVolatility (atrPct : ℚ) (cfg : StrategyConfig) : ℚ :=
  if atrPct < cfg.regime.volLow then (atrPct - cfg.regime.volLow) / cfg.regime.volLow
  else if atrPct > cfg.regime.volHigh then (atrPct - cfg.regime.volHigh) / cfg.regime.volHigh
  else 0

/-- strategy.ts `classifyRegime`. -/
def classifyRegime (atrPct trendScore : ℚ) (cfg : StrategyConfig) : String :=
  if atrPct ≥ cfg.regime.volHigh then "high-vol"
  else if atrPct ≤ cfg.regime.volLow * (4/5) then "low-vol"
  else if trendScore ≥ cfg.regime.trendThresh then "trend-up"
  else if trendScore ≤ -cfg.regime.trendThresh then "trend-down"
  else "range"

/-- The trend score of `analyzeMarket`: mean of the three amplified
MACD scores and the low-timeframe Bollinger band-position term. -/
def trendScoreOf (highTf midTf lowTf : TimeframeData) : ℚ :=
  average
    [scoreTrend highTf.macdHist,
     scoreTrend midTf.macdHist,
     scoreTrend lowTf.macdHist,
     if lowTf.last > lowTf.bbMiddle then 3/20 else -(3/20)]

/-- The momentum score of `analyzeMarket`. -/
def momentumScoreOf (midTf lowTf : TimeframeData) : ℚ :=
  average
    [normalizeRSI lowTf.rsi,
     normalizeRSI midTf.rsi * (4/5),
     normalizeStoch lowTf.stochK lowTf.stochD]

/-- The confidence blend of `analyzeMarket`, before any action is
chosen. -/
def confidenceBlend (trend momentum volatility : ℚ) : ℚ :=
  clamp01 (trend * (2/5) + momentum * (2/5) + maxQ 0 (1 - absQ volatility) * (1/5))

/-- Action of a StrategyResult. -/
inductive Action
  | BUY
  | SELL
  | HOLD
deriving DecidableEq, Repr

/-- StrategyResult of strategy.ts (the `reason` string, which only
interpolates indicator readings for logging, is omitted). -/
structure StrategyResult where
  action : Action
  symbol : String
  price : ℚ
  confidence : ℚ
  regime : String
  trendScore : ℚ
  momentumScore : ℚ
  volatilityScore : ℚ
  sl : Option ℚ
  tp : Option ℚ
deriving DecidableEq, Repr

/-- The BUY gate of `analyzeMarket` over the low-timeframe readings
and the derived trend score and confidence. -/
def buySignal (rsi stochK trend confidence : ℚ) (cfg : StrategyConfig) : Prop :=
  rsi < cfg.indicators.rsiBuy ∧ stochK < 45 ∧
    trend > cfg.regime.trendThresh ∧ confidence > cfg.regime.confidenceFloor

/-- The SELL gate of `analyzeMarket`. -/
def sellSignal (rsi stochK trend confidence : ℚ) (cfg : StrategyConfig) : Prop :=
  rsi > cfg.indicators.rsiSell ∧ stochK > 55 ∧
    trend < -cfg.regime.trendThresh ∧ confidence > cfg.regime.confidenceFloor

instance (rsi stochK trend confidence : ℚ) (cfg : StrategyConfig) :
    Decidable (buySignal rsi stochK trend confidence cfg) :=
  inferInstanceAs (Decidable (_ ∧ _ ∧ _ ∧ _))

instance (rsi stochK trend confidence : ℚ) (cfg : StrategyConfig) :
    Decidable (sellSignal rsi stochK trend confidence cfg) :=
  inferInstanceAs (Decidable (_ ∧ _ ∧ _ ∧ _))

/-- The action decision of `analyzeMarket` (lines 77-129 of
strategy.ts): BUY is tested first, then SELL, else HOLD. -/
def decideAction (rsi stochK trend confidence : ℚ) (cfg : StrategyConfig) : Action :=
  if buySignal rsi stochK trend confidence cfg then .BUY
  else if sellSignal rsi stochK trend confidence cfg then .SELL
  else .HOLD

/-- `analyzeMarket` on three successfully fetched timeframes. -/
def analyzeMarketCore (symbol : String) (highTf midTf lowTf : TimeframeData)
    (cfg : StrategyConfig) : StrategyResult :=
  let price := lowTf.last
  let trendScore := trendScoreOf highTf midTf lowTf
  let momentumScore := momentumScoreOf midTf lowTf
  let volatilityScore := scoreVolatility lowTf.atrPct cfg
  let confidence := confidenceBlend trendScore momentumScore volatilityScore
  let regime := classifyRegime lowTf.atrPct trendScore cfg
  if buySignal lowTf.rsi lowTf.stochK trendScore confidence cfg then
    let atr := lowTf.last * lowTf.atrPct
    { action := .BUY, symbol := symbol, price := price, confidence := confidence
      regime := regime, trendScore := trendScore, momentumScore := momentumScore
      volatilityScore := volatilityScore
      sl := some (price - atr * cfg.risk.slAtrMultiplier)
      tp := some (price + atr * cfg.risk.tpAtrMultiplier) }
  else if sellSignal lowTf.rsi lowTf.stochK trendScore confidence cfg then
    { action := .SELL, symbol := symbol, price := price, confidence := confidence
      regime := regime, trendScore := trendScore, momentumScore := momentumScore
      volatilityScore := volatilityScore, sl := none, tp := none }
  else
    { action := .HOLD, symbol := symbol, price := price, confidence := confidence
      regime := regime, trendScore := trendScore, momentumScore := momentumScore
      volatilityScore := volatilityScore, sl := none, tp := none }

/-- The short-circuit result of `analyzeMarket` when any timeframe
fetch returned null (lines 40-50 of strategy.ts). -/
def insufficientResult (symbol : String) : StrategyResult :=
  { action := .HOLD, symbol := symbol, price := 0, confidence := 0
    regime := "unknown", trendScore := 0, momentumScore := 0
    volatilityScore := 0, sl := none, tp := none }

/-- The data-sufficiency gate of `fetchTf` (lines 132-134): a failed
fetch (`!candles`) or fewer than 50 candles yields null, otherwise
the indicator pipeline (external library calls, abstracted as
`compute`) produces the snapshot. -/
def fetchTf {α : Type} (candles : Option (List α))
    (compute : List α → TimeframeData) : Option TimeframeData :=
  match candles with
  | none => none
  | some cs => if cs.length < 50 then none else some (compute cs)

/-- `analyzeMarket` over the three `fetchTf` results. -/
def analyzeMarketOpt (symbol : String)
    (highTf midTf lowTf : Option TimeframeData)
    (cfg : StrategyConfig) : StrategyResult :=
  match highTf, midTf, lowTf with
  | some h, some m, some l => analyzeMarketCore symbol h m l cfg
  | _, _, _ => insufficientResult symbol

/-- Full `analyzeMarket`: fetch the three timeframes (each given the
candle list its exchange call returned, or `none` when the call
yielded no data), gate on sufficiency, then score. -/
def analyzeMarket {α : Type} (symbol : String)
    (highCandles midCandles lowCandles : Option (List α))
    (compute : List α → TimeframeData)
    (cfg : StrategyConfig) : StrategyResult :=
  analyzeMarketOpt symbol
    (fetchTf highCandles compute)
    (fetchTf midCandles compute)
    (fetchTf lowCandles compute) cfg

/-! ## Risk manager (src/unnamed/part_010, `checkOpenPositions`) -/

/-- JavaScript `opt || dflt` on an optional number: a present nonzero
value, else the fallback. -/
def jsOrQ (o : Option ℚ) (dflt : ℚ) : ℚ :=
  match o with
  | some v => if v = 0 then dflt else v
  | none => dflt

/-- JavaScript truthiness of an optional number. -/
def truthy (o : Option ℚ) : Prop :=
  match o with
  | some v => v ≠ 0
  | none => False

instance (o : Option ℚ) : Decidable (truthy o) :=
  match o with
  | some v => inferInstanceAs (Decidable (v ≠ 0))
  | none => inferInstanceAs (Decidable False)

/-- An open trade as read by `checkOpenPositions`: entry price,
amount, stored stop-loss/take-profit prices and the persisted
trailing high-water mark. -/
structure OpenTrade where
  price : ℚ
  amount : ℚ
  sl_price : Option ℚ
  tp_price : Option ℚ
  highest_price : Option ℚ
deriving DecidableEq, Repr

/-- The close reason chosen by `checkOpenPositions` ("Trailing SL
Hit" / "Stop Loss Hit" / "Take Profit Hit"). -/
inductive ExitReason
  | trailingStop
  | stopLoss
  | takeProfit
deriving DecidableEq, Repr

/-- One iteration of `checkOpenPositions` for a trade at the current
ticker price: first raise the high-water mark, then (when a trailing
multiplier is configured, i.e. truthy) test the trailing level, and
whenever no action was chosen yet (`if (!action)`) test the fixed
stop-loss/take-profit levels.  Returns the close decision and the
updated high-water mark.  A falsy current price makes the loop
`continue`, modelled as no action with the stored mark kept. -/
def checkPosition (cfg : StrategyConfig) (trade : OpenTrade)
    (currentPrice : ℚ) : Option ExitReason × ℚ :=
  if currentPrice = 0 then (none, jsOrQ trade.highest_price trade.price)
  else
    let highest0 := jsOrQ trade.highest_price trade.price
    let highest := if currentPrice > highest0 then currentPrice else highest0
    let trailHit : Bool :=
      match cfg.risk.trailingSlMultiplier with
      | some t =>
        if t = 0 then false
        else
          let entryPrice := trade.price
          let slPrice := jsOrQ trade.sl_price (entryPrice * (19/20))
          let riskAmount := entryPrice - slPrice
          let trailDistance := riskAmount * (t / cfg.risk.slAtrMultiplier)
          currentPrice < highest - trailDistance
      | none => false
    if trailHit then (some .trailingStop, highest)
    else if truthy trade.sl_price ∧ currentPrice ≤ jsOrQ trade.sl_price 0 then
      (some .stopLoss, highest)
    else if truthy trade.tp_price ∧ currentPrice ≥ jsOrQ trade.tp_price 0 then
      (some .takeProfit, highest)
    else (none, highest)

/-! ## Daily drawdown breaker (src/unnamed/part_010, `computeDailyDrawdown`) -/

/-- The running-max fold of `computeDailyDrawdown`: carries the peak
and the most negative peak-to-value fraction seen so far. -/
def ddFold : List ℚ → ℚ → ℚ → ℚ
  | [], _, maxDD => maxDD
  | b :: rest, peak, maxDD =>
    let peak2 := if b > peak then b else peak
    let dd := if peak2 = 0 then 0 else (b - peak2) / peak2
    let maxDD2 := if dd < maxDD then dd else maxDD
    ddFold rest peak2 maxDD2

/-- `computeDailyDrawdown` over the balances of the current day's
snapshots: `null` when there is no snapshot, otherwise the most
negative running-max drawdown fraction. -/
def computeDailyDrawdown (balances : List ℚ) : Option ℚ :=
  match balances with
  | [] => none
  | b0 :: _ => some (ddFold balances b0 0)

/-! ## Execution pass (src/unnamed/part_010, cron GET, steps A and B) -/

/-- A per-asset entry of `calculateTotalBalanceUsdt`: asset code,
held amount, and its valuation in the quote currency. -/
structure AssetHolding where
  asset : String
  amount : ℚ
  usdtValue : ℚ
deriving DecidableEq, Repr

/-- The slice of a StrategyResult the execution planner consumes. -/
structure Signal where
  symbol : String
  confidence : ℚ
  price : ℚ
deriving DecidableEq, Repr

/-- One entry of the cron results array (paper-trail of the pass). -/
inductive ExecResult
  | sellOrder (symbol : String) (cost : ℚ)
  | liquidate (symbol : String) (target : String) (cost : ℚ)
  | buyOrder (symbol : String) (cost : ℚ)
  | holdAtTarget (symbol : String)
  | skipInsufficient (symbol : String)
deriving DecidableEq, Repr

/-- The characters before the first slash. -/
def takeUntilSlash : List Char → List Char
  | [] => []
  | c :: cs => if c = '/' then [] else c :: takeUntilSlash cs

/-- `symbol.split('/')[0]`: the prefix before the first slash (the
whole string when there is none). -/
def baseAssetOf (symbol : String) : String :=
  String.mk (takeUntilSlash symbol.data)

/-- Stable insertion of `x` into a list already processed, keeping
every element `y` with `le y x` before `x`; folding this from the
left is a stable sort, matching the stable `Array.prototype.sort`. -/
def insertLe {α : Type} (le : α → α → Bool) (x : α) : List α → List α
  | [] => [x]
  | y :: ys => if le y x then y :: insertLe le x ys else x :: y :: ys

/-- Stable sort by a boolean total preorder (JavaScript
`Array.prototype.sort` with a consistent comparator). -/
def stableSortBy {α : Type} (le : α → α → Bool) (l : List α) : List α :=
  l.foldl (fun acc x => insertLe le x acc) []

/-- Step A of the pass: each SELL signal whose held position value
exceeds `config.minTradeUsd` is liquidated (the market sell fills at
the holding's valuation) and the proceeds are credited to the running
balance. -/
def phaseA (assets : List AssetHolding) (minTradeUsd : ℚ) :
    List Signal → ℚ → ℚ × List ExecResult
  | [], bal => (bal, [])
  | s :: rest, bal =>
    match assets.find? (fun a => a.asset = baseAssetOf s.symbol) with
    | some a =>
      if a.usdtValue > minTradeUsd then
        let r := phaseA assets minTradeUsd rest (bal + a.usdtValue)
        (r.1, .sellOrder s.symbol a.usdtValue :: r.2)
      else phaseA assets minTradeUsd rest bal
    | none => phaseA assets minTradeUsd rest bal

/-- The funding candidates for one BUY: held assets other than the
quote currency, the pair being bought, and any other BUY target. -/
def fundingCandidates (assets : List AssetHolding) (buys : List Signal)
    (target : String) : List AssetHolding :=
  assets.filter (fun a =>
    !(a.asset = "USDT") &&
    !(a.asset ++ "/USDT" = target) &&
    !(buys.any (fun b => b.symbol = a.asset ++ "/USDT")))

/-- The confidence the planner attributes to a held asset: its
analysis confidence when the pair was analyzed this run, zero
otherwise. -/
def candConfidence (analyses : List Signal) (a : AssetHolding) : ℚ :=
  match analyses.find? (fun s => s.symbol = a.asset ++ "/USDT") with
  | some s => s.confidence
  | none => 0

/-- The liquidation loop inside step B: walk the
ascending-confidence candidates, stopping as soon as the balance
covers the need, selling each candidate worth more than the minimum
notional at its valuation. -/
def liquidateLoop (minTradeUsd needed : ℚ) (target : String) :
    List AssetHolding → ℚ → ℚ × List ExecResult
  | [], bal => (bal, [])
  | a :: rest, bal =>
    if bal ≥ needed then (bal, [])
    else if a.usdtValue > minTradeUsd then
      let r := liquidateLoop minTradeUsd needed target rest (bal + a.usdtValue)
      (r.1, .liquidate (a.asset ++ "/USDT") target a.usdtValue :: r.2)
    else liquidateLoop minTradeUsd needed target rest bal

/-- `currentPosition ? currentPosition.usdtValue : 0` for the asset
bought by a symbol (lines 632-634 of the route). -/
def currentHoldingValue (assets : List AssetHolding) (symbol : String) : ℚ :=
  match assets.find? (fun a => a.asset = baseAssetOf symbol) with
  | some a => a.usdtValue
  | none => 0

/-- One BUY signal of step B: target `totalUsdt × allocationPerTrade`;
skip (HOLD) at ≥90% coverage; skip silently when the missing amount is
under the minimum notional; fund a shortfall from weak holdings; then
invest `min(balance, needed)` when that exceeds the minimum notional
(the market buy fills at that cost), else record a SKIP. -/
def phaseBStep (totalUsdt allocationPerTrade minTradeUsd : ℚ)
    (assets : List AssetHolding) (buys analyses : List Signal)
    (s : Signal) (bal : ℚ) : ℚ × List ExecResult :=
  let targetSize := totalUsdt * allocationPerTrade
  let currentVal := currentHoldingValue assets s.symbol
  if currentVal ≥ targetSize * (9/10) then (bal, [.holdAtTarget s.symbol])
  else
    let neededUsdt := targetSize - currentVal
    if neededUsdt < minTradeUsd then (bal, [])
    else
      let afterFund :=
        if bal < neededUsdt then
          let cands := fundingCandidates assets buys s.symbol
          let scored := stableSortBy
            (fun a b => candConfidence analyses a ≤ candConfidence analyses b) cands
          liquidateLoop minTradeUsd neededUsdt s.symbol scored bal
        else (bal, [])
      let amountToInvest := minQ afterFund.1 neededUsdt
      if amountToInvest > minTradeUsd then
        (afterFund.1 - amountToInvest,
         afterFund.2 ++ [.buyOrder s.symbol amountToInvest])
      else (afterFund.1, afterFund.2 ++ [.skipInsufficient s.symbol])

/-- Step B over an already-sorted BUY list. -/
def phaseBRun (totalUsdt allocationPerTrade minTradeUsd : ℚ)
    (assets : List AssetHolding) (buys analyses : List Signal) :
    List Signal → ℚ → ℚ × List ExecResult
  | [], bal => (bal, [])
  | s :: rest, bal =>
    let r := phaseBStep totalUsdt allocationPerTrade minTradeUsd assets buys analyses s bal
    let r2 := phaseBRun totalUsdt allocationPerTrade minTradeUsd assets buys analyses rest r.1
    (r2.1, r.2 ++ r2.2)

/-- The full two-phase execution pass of the cron route: step A over
the SELL signals, then step B over the BUY signals sorted by
descending confidence; the running balance flows through both. -/
def executePass (totalUsdt allocationPerTrade minTradeUsd : ℚ)
    (assets : List AssetHolding) (sells buys analyses : List Signal)
    (bal : ℚ) : ℚ × List ExecResult :=
  let a := phaseA assets minTradeUsd sells bal
  let sortedBuys := stableSortBy (fun x y => y.confidence ≤ x.confidence) buys
  let b := phaseBRun totalUsdt allocationPerTrade minTradeUsd assets sortedBuys analyses
    sortedBuys a.1
  (b.1, a.2 ++ b.2)

/-! ## Cron run skeleton around the drawdown gate -/

/-- What a cron run did after the enablement and macro-safety checks:
either it stopped at the drawdown breaker (logging a warning and
returning before `checkOpenPositions` and before steps A/B), or it
completed risk-exit management and the execution pass. -/
inductive RunOutcome
  | halted (dd : ℚ)
  | completed (riskExits : List (Option ExitReason × ℚ)) (finalBal : ℚ)
      (results : List ExecResult)
deriving DecidableEq, Repr

/-- The cron GET after enablement/macro checks (lines 562-720 of the
route): compute the daily drawdown; on breach (`dd ≤ -limit`) log and
return at once; otherwise run `checkOpenPositions` over every open
trade (each paired with its ticker price) and then the two-phase
execution pass. -/
def cronRun (snapshots : List ℚ) (cfg : StrategyConfig)
    (openTrades : List (OpenTrade × ℚ))
    (assets : List AssetHolding) (sells buys analyses : List Signal)
    (totalUsdt bal : ℚ) : RunOutcome :=
  let breach :=
    match computeDailyDrawdown snapshots with
    | some dd => if dd ≤ -cfg.risk.maxDailyDrawdown then some dd else none
    | none => none
  match breach with
  | some dd => .halted dd
  | none =>
    let exits := openTrades.map (fun tp => checkPosition cfg tp.1 tp.2)
    let pass := executePass totalUsdt cfg.allocationPerTrade cfg.minTradeUsd
      assets sells buys analyses bal
    .completed exits pass.1 pass.2

/-- Whether risk-exit management (`checkOpenPositions`) executed in a
run. -/
def riskExitExecuted (o : RunOutcome) : Bool :=
  match o with
  | .halted _ => false
  | .completed _ _ _ => true

/-! ## Pair selector (src/unnamed/part_001, `selectTradablePairs`) -/

/-- A raw exchange ticker with its duck-typed optional fields. -/
structure Ticker where
  quoteVolume : Option ℚ
  baseVolume : Option ℚ
  bid : Option ℚ
  ask : Option ℚ
  last : Option ℚ
  high : Option ℚ
  low : Option ℚ
deriving DecidableEq, Repr

/-- PairInfo of pairSelection.ts. -/
structure PairInfo where
  symbol : String
  volume : ℚ
  spread : ℚ
  volatility : ℚ
deriving DecidableEq, Repr

/-- `symbol.endsWith(suffix)`, computed on the character lists. -/
def strEndsWith (s suffix : String) : Bool :=
  if s.data.length < suffix.data.length then false
  else s.data.drop (s.data.length - suffix.data.length) = suffix.data

/-- The per-ticker candidate construction (the first loop of
`selectTradablePairs`): non-USDT-quoted symbols, zero-volume tickers
and tickers without a last price are dropped; missing high/low fall
back to the last price. -/
def mkCandidate (symbol : String) (t : Ticker) : Option PairInfo :=
  if !(strEndsWith symbol "/USDT") then none
  else
    let volume := ((t.quoteVolume.orElse fun _ => t.baseVolume).getD 0)
    if volume ≤ 0 then none
    else
      let bid := t.bid.getD 0
      let ask := t.ask.getD 0
      let last := t.last.getD 0
      if last = 0 then none
      else
        let spread := if last > 0 then absQ (ask - bid) / last else 0
        let high := t.high.getD last
        let low := t.low.getD last
        let volatility := if last > 0 then absQ (high - low) / last else 0
        some { symbol := symbol, volume := volume, spread := spread,
               volatility := volatility }

/-- Left-to-right accumulation of the held-pair set. -/
def heldPairsGo : List (String × ℚ) → List String → List String
  | [], acc => acc
  | (asset, qty) :: rest, acc =>
    if qty = 0 then heldPairsGo rest acc
    else if asset = "USDT" then heldPairsGo rest acc
    else
      let sym := asset ++ "/USDT"
      if sym ∈ acc then heldPairsGo rest acc
      else heldPairsGo rest (acc ++ [sym])

/-- The held-pair set: balance entries with a truthy quantity, other
than the quote currency itself, mapped to `ASSET/USDT`; the JS `Set`
deduplicates keeping first insertion order. -/
def heldPairsOf (entries : List (String × ℚ)) : List String :=
  heldPairsGo entries []

/-- The pick loop: starting from the held pairs, append sorted
candidates, breaking as soon as the picked length reaches the limit,
skipping duplicates. -/
def pickLoop (limit : ℚ) : List PairInfo → List String → List String
  | [], picked => picked
  | c :: rest, picked =>
    if (picked.length : ℚ) ≥ limit then picked
    else if c.symbol ∈ picked then pickLoop limit rest picked
    else pickLoop limit rest (picked ++ [c.symbol])

/-- The hard cap DEFAULT_MAX_RESULTS. -/
def DEFAULT_MAX_RESULTS : ℚ := 12

/-- The filter chain: volume, spread and bounded-volatility gates. -/
def filteredCandidates (tickers : List (String × Ticker))
    (volumeThresh spreadThresh : ℚ) (cfg : StrategyConfig) : List PairInfo :=
  (tickers.filterMap (fun st => mkCandidate st.1 st.2)).filter (fun c =>
    decide (c.volume ≥ volumeThresh) && decide (c.spread ≤ spreadThresh) &&
    decide (c.volatility ≥ cfg.regime.volLow) &&
    decide (c.volatility ≤ cfg.regime.volHigh * 2))

/-- The surviving candidates sorted descending by volume. -/
def sortedCandidates (tickers : List (String × Ticker))
    (volumeThresh spreadThresh : ℚ) (cfg : StrategyConfig) : List PairInfo :=
  stableSortBy (fun a b => b.volume ≤ a.volume)
    (filteredCandidates tickers volumeThresh spreadThresh cfg)

/-- `selectTradablePairs`: `none` for the fetched data models a
balance/ticker retrieval failure (the catch block), which falls back
to the static `config.pairs`; so does a successful run that picked
nothing. -/
def selectTradablePairs
    (fetched : Option (List (String × ℚ) × List (String × Ticker)))
    (volumeThresh spreadThresh : ℚ) (cfg : StrategyConfig) : List String :=
  match fetched with
  | none => cfg.pairs
  | some (bal, tickers) =>
    let held := heldPairsOf bal
    let sorted := sortedCandidates tickers volumeThresh spreadThresh cfg
    let limit := minQ cfg.risk.maxPairs DEFAULT_MAX_RESULTS
    let picked := pickLoop limit sorted held
    if picked.length > 0 then picked else cfg.pairs

/-! ## Auto-tuner (src/unnamed/part_004, `autoTuneStrategy`) -/

/-- The advisory interaction as seen by `autoTuneStrategy`:
`fail` is a thrown fetch error or a non-OK HTTP status, `noParams`
is a response whose content is absent, unparsable, or lacks
`params` (all raise and land in the catch), and `ok` is a parsed
suggestion carrying a `params` object. -/
inductive AdvisoryOutcome
  | fail
  | noParams
  | ok (params : RawFields)
deriving DecidableEq, Repr

/-- The fields of AutoTuneResult the claims concern. -/
structure TuneResult where
  updated : Bool
  consulted : Bool
  config : StrategyConfig
deriving DecidableEq, Repr

/-- A suggestion field that is absent keeps the current numeric
value; a present one (number or garbage) is passed through. -/
def keep (v : RawVal) (cur : ℚ) : RawVal :=
  match v with
  | .missing => .num cur
  | v => v

/-- `normalizeConfigFromAI`: spread the suggestion's params over the
current config; absent numeric params keep the current value, present
ones are passed through (to be clamped by `saveStrategyConfig`). -/
def normalizeConfigFromAI (current : StrategyConfig) (params : RawFields) :
    RawConfig :=
  .obj
    { pairs :=
        some (match params.pairs with
          | some ps => if ps.length > 0 then ps else current.pairs
          | none => current.pairs)
      allocationPerTrade := keep params.allocationPerTrade current.allocationPerTrade
      minTradeUsd := keep params.minTradeUsd current.minTradeUsd
      timeframe := { lookback := keep params.timeframe.lookback current.timeframe.lookback }
      risk :=
        { maxRiskPerTrade := keep params.risk.maxRiskPerTrade current.risk.maxRiskPerTrade
          minRiskPerTrade := keep params.risk.minRiskPerTrade current.risk.minRiskPerTrade
          maxDailyDrawdown := keep params.risk.maxDailyDrawdown current.risk.maxDailyDrawdown
          maxOpenPositions := keep params.risk.maxOpenPositions current.risk.maxOpenPositions
          maxPairs := keep params.risk.maxPairs current.risk.maxPairs
          minTradeUsd := keep params.risk.minTradeUsd current.risk.minTradeUsd
          slAtrMultiplier := keep params.risk.slAtrMultiplier current.risk.slAtrMultiplier
          tpAtrMultiplier := keep params.risk.tpAtrMultiplier current.risk.tpAtrMultiplier
          trailingSlMultiplier :=
            match params.risk.trailingSlMultiplier with
            | .missing =>
              match current.risk.trailingSlMultiplier with
              | some t => .num t
              | none => .nullish
            | v => v }
      indicators :=
        { rsiBuy := keep params.indicators.rsiBuy current.indicators.rsiBuy
          rsiSell := keep params.indicators.rsiSell current.indicators.rsiSell
          bbPeriod := keep params.indicators.bbPeriod current.indicators.bbPeriod
          bbStdDev := keep params.indicators.bbStdDev current.indicators.bbStdDev
          stochK := keep params.indicators.stochK current.indicators.stochK
          stochD := keep params.indicators.stochD current.indicators.stochD
          macdFast := keep params.indicators.macdFast current.indicators.macdFast
          macdSlow := keep params.indicators.macdSlow current.indicators.macdSlow
          macdSignal := keep params.indicators.macdSignal current.indicators.macdSignal }
      regime :=
        { volLow := keep params.regime.volLow current.regime.volLow
          volHigh := keep params.regime.volHigh current.regime.volHigh
          trendThresh := keep params.regime.trendThresh current.regime.trendThresh
          confidenceFloor := keep params.regime.confidenceFloor current.regime.confidenceFloor } }

/-- `autoTuneStrategy` over the stored raw config: without the
external credential it returns at once; an advisory failure or a
malformed/parameter-less response raises, is caught, logged, and the
current config is returned unchanged; on success the suggestion is
normalized, merged-and-clamped, and saved.  Returns the tune result
and the storage content after the call. -/
def autoTuneStrategy (apiKeySet : Bool) (outcome : AdvisoryOutcome)
    (store : RawConfig) : TuneResult × RawConfig :=
  let currentConfig := mergeConfig store
  if !apiKeySet then
    ({ updated := false, consulted := false, config := currentConfig }, store)
  else
    match outcome with
    | .fail => ({ updated := false, consulted := false, config := currentConfig }, store)
    | .noParams => ({ updated := false, consulted := false, config := currentConfig }, store)
    | .ok params =>
      let updatedConfig := normalizeConfigFromAI currentConfig params
      let saved := mergeConfig updatedConfig
      ({ updated := true, consulted := true, config := saved }, configToRaw saved)

/-! ## Specification-side descriptions used to state the claims -/

/-- Modelled from the spec: the proceeds step A credits for one SELL
signal — the held position's value when it exceeds the minimum trade
notional, nothing otherwise. -/
def phaseAProceeds (assets : List AssetHolding) (minTradeUsd : ℚ)
    (s : Signal) : ℚ :=
  match assets.find? (fun a => a.asset = baseAssetOf s.symbol) with
  | some a => if a.usdtValue > minTradeUsd then a.usdtValue else 0
  | none => 0

/-- Modelled from the spec: the orders step A is specified to
produce — one liquidation per SELL signal whose held value exceeds
the minimum trade notional. -/
def specPhaseAResults (assets : List AssetHolding) (minTradeUsd : ℚ)
    (sells : List Signal) : List ExecResult :=
  sells.filterMap (fun s =>
    match assets.find? (fun a => a.asset = baseAssetOf s.symbol) with
    | some a =>
      if a.usdtValue > minTradeUsd then some (.sellOrder s.symbol a.usdtValue)
      else none
    | none => none)

/-- Modelled from the spec: every clamped numeric field lies within
its documented clamp bounds (the bounds of the `mergeConfig` clamp
calls; the two dependent bounds use the sibling field). -/
def configInBounds (c : StrategyConfig) : Prop :=
  1/100 ≤ c.allocationPerTrade ∧ c.allocationPerTrade ≤ 1 ∧
  5 ≤ c.minTradeUsd ∧ c.minTradeUsd ≤ 1000 ∧
  50 ≤ c.timeframe.lookback ∧ c.timeframe.lookback ≤ 600 ∧
  1/100 ≤ c.risk.maxRiskPerTrade ∧ c.risk.maxRiskPerTrade ≤ 1 ∧
  1/500 ≤ c.risk.minRiskPerTrade ∧ c.risk.minRiskPerTrade ≤ c.risk.maxRiskPerTrade ∧
  1/20 ≤ c.risk.maxDailyDrawdown ∧ c.risk.maxDailyDrawdown ≤ 1/2 ∧
  1 ≤ c.risk.maxOpenPositions ∧ c.risk.maxOpenPositions ≤ 20 ∧
  1 ≤ c.risk.maxPairs ∧ c.risk.maxPairs ≤ 50 ∧
  5 ≤ c.risk.minTradeUsd ∧ c.risk.minTradeUsd ≤ 1000 ∧
  1/2 ≤ c.risk.slAtrMultiplier ∧ c.risk.slAtrMultiplier ≤ 5 ∧
  1 ≤ c.risk.tpAtrMultiplier ∧ c.risk.tpAtrMultiplier ≤ 10 ∧
  5 ≤ c.indicators.rsiBuy ∧ c.indicators.rsiBuy ≤ 80 ∧
  20 ≤ c.indicators.rsiSell ∧ c.indicators.rsiSell ≤ 95 ∧
  5 ≤ c.indicators.bbPeriod ∧ c.indicators.bbPeriod ≤ 120 ∧
  1/2 ≤ c.indicators.bbStdDev ∧ c.indicators.bbStdDev ≤ 5 ∧
  2 ≤ c.indicators.stochK ∧ c.indicators.stochK ≤ 50 ∧
  2 ≤ c.indicators.stochD ∧ c.indicators.stochD ≤ 20 ∧
  2 ≤ c.indicators.macdFast ∧ c.indicators.macdFast ≤ 50 ∧
  10 ≤ c.indicators.macdSlow ∧ c.indicators.macdSlow ≤ 100 ∧
  2 ≤ c.indicators.macdSignal ∧ c.indicators.macdSignal ≤ 30 ∧
  1/1000 ≤ c.regime.volLow ∧ c.regime.volLow ≤ 5 ∧
  c.regime.volLow ≤ c.regime.volHigh ∧ c.regime.volHigh ≤ 10 ∧
  1/10 ≤ c.regime.trendThresh ∧ c.regime.trendThresh ≤ 1 ∧
  1/10 ≤ c.regime.confidenceFloor ∧ c.regime.confidenceFloor ≤ 9/10

/-- The candle-gate failure condition of `fetchTf`: no data returned,
or fewer than 50 candles. -/
def insufficientCandles {α : Type} (candles : Option (List α)) : Prop :=
  match candles with
  | none => True
  | some cs => cs.length < 50

instance {α : Type} (candles : Option (List α)) :
    Decidable (insufficientCandles candles) :=
  match candles with
  | none => inferInstanceAs (Decidable True)
  | some cs => inferInstanceAs (Decidable (cs.length < 50))

/-! ## Concrete instances used in counterexamples and witnesses -/

/-- A raw object all of whose fields are absent. -/
def rawEmptyFields : RawFields :=
  { pairs := none
    allocationPerTrade := .missing
    minTradeUsd := .missing
    timeframe := { lookback := .missing }
    risk :=
      { maxRiskPerTrade := .missing, minRiskPerTrade := .missing
        maxDailyDrawdown := .missing, maxOpenPositions := .missing
        maxPairs := .missing, minTradeUsd := .missing
        slAtrMultiplier := .missing, tpAtrMultiplier := .missing
        trailingSlMultiplier := .missing }
    indicators :=
      { rsiBuy := .missing, rsiSell := .missing, bbPeriod := .missing
        bbStdDev := .missing, stochK := .missing, stochD := .missing
        macdFast := .missing, macdSlow := .missing, macdSignal := .missing }
    regime :=
      { volLow := .missing, volHigh := .missing, trendThresh := .missing
        confidenceFloor := .missing } }

/-- A raw config whose `allocationPerTrade` is the out-of-range 5.0. -/
def rawAllocEx : RawConfig :=
  .obj { rawEmptyFields with allocationPerTrade := .num 5 }

/-- A raw config carrying 999 both for `risk.slAtrMultiplier` (a
clamped field) and `risk.trailingSlMultiplier` (the unclamped one). -/
def rawTrail999 : RawConfig :=
  .obj { rawEmptyFields with
    risk := { rawEmptyFields.risk with
      slAtrMultiplier := .num 999, trailingSlMultiplier := .num 999 } }

/-- A config with a 10% daily drawdown limit. -/
def cfgDd : StrategyConfig :=
  { DEFAULT_CONFIG with
    risk := { DEFAULT_CONFIG.risk with maxDailyDrawdown := 1/10 } }

/-- A config with stop-loss ATR multiplier 2 and trailing multiplier
4, so the trailing level sits below the fixed stop-loss. -/
def cfgTrail : StrategyConfig :=
  { DEFAULT_CONFIG with
    risk := { DEFAULT_CONFIG.risk with
      slAtrMultiplier := 2, trailingSlMultiplier := some 4 } }

/-- An open trade bought at 100 with stop-loss 90 and no take-profit. -/
def tradeRisk : OpenTrade :=
  { price := 100, amount := 1, sl_price := some 90, tp_price := none
    highest_price := none }

/-- The thresholds of the spec's BUY example: rsiBuy 35, trendThresh
0.3, confidenceFloor 0.35. -/
def cfgBuyEx : StrategyConfig :=
  { DEFAULT_CONFIG with
    indicators := { DEFAULT_CONFIG.indicators with rsiBuy := 35 }
    regime := { DEFAULT_CONFIG.regime with
      trendThresh := 3/10, confidenceFloor := 7/20 } }

/-- A constant indicator snapshot, standing in for the external
indicator pipeline in witnesses. -/
def tfConst : TimeframeData :=
  { rsi := 50, macdHist := 0, stochK := 50, stochD := 50
    bbUpper := 1, bbMiddle := 1, bbLower := 1, atrPct := 0, last := 1 }

/-- The spec's rebalance-funding example: one weak holding worth 80. -/
def assetsEx : List AssetHolding :=
  [{ asset := "BBB", amount := 1, usdtValue := 80 }]

/-- The spec's rebalance-funding example: a single BUY signal. -/
def buysEx : List Signal :=
  [{ symbol := "AAA/USDT", confidence := 1/2, price := 10 }]

/-- A config whose `maxPairs` is 1. -/
def cfgOnePair : StrategyConfig :=
  { DEFAULT_CONFIG with
    risk := { DEFAULT_CONFIG.risk with maxPairs := 1 } }

/-- Three held balances. -/
def heldThree : List (String × ℚ) := [("AAA", 1), ("BBB", 1), ("CCC", 1)]

/-- A holding already worth 95% of a 100-unit target. -/
def assetsAtTarget : List AssetHolding :=
  [{ asset := "AAA", amount := 1, usdtValue := 95 }]

/-- The single BUY signal of the funding example, on its own. -/
def sigEx : Signal := { symbol := "AAA/USDT", confidence := 1/2, price := 10 }

/-! # Theorems -/

/-! ## Generic lemmas about the embedded primitives -/

theorem clampQ_le (v lo hi : ℚ) : clampQ v lo hi ≤ hi := by
  rw [clampQ_eq]; exact min_le_right _ _

theorem le_clampQ (v lo hi : ℚ) (h : lo ≤ hi) : lo ≤ clampQ v lo hi :=
  by rw [clampQ_eq]; exact le_min (le_max_right v lo) h

theorem le_mergeField (v : RawVal) (d lo hi : ℚ) (h : lo ≤ hi) :
    lo ≤ mergeField v d lo hi := by
  cases v with
  | missing => exact le_clampQ _ _ _ h
  | nonNumeric => exact le_refl lo
  | num q => exact le_clampQ _ _ _ h

theorem mergeField_le (v : RawVal) (d lo hi : ℚ) (h : lo ≤ hi) :
    mergeField v d lo hi ≤ hi := by
  cases v with
  | missing => exact clampQ_le _ _ _
  | nonNumeric => exact h
  | num q => exact clampQ_le _ _ _

theorem roundJS_mem (x lo hi : ℚ) (hlo : ∃ k : ℤ, lo = k) (hhi : ∃ k : ℤ, hi = k)
    (h1 : lo ≤ x) (h2 : x ≤ hi) : lo ≤ roundJS x ∧ roundJS x ≤ hi := by
  obtain ⟨m, rfl⟩ := hlo
  obtain ⟨n, rfl⟩ := hhi
  unfold roundJS
  constructor
  · exact_mod_cast Int.le_floor.mpr (by linarith)
  · have : (⌊x + 1/2⌋ : ℤ) < n + 1 := Int.floor_lt.mpr (by push_cast; linarith)
    exact_mod_cast Int.lt_add_one_iff.mp this

theorem le_mergeFieldInt (v : RawVal) (d lo hi : ℚ)
    (hlo : ∃ k : ℤ, lo = k) (hhi : ∃ k : ℤ, hi = k) (h : lo ≤ hi) :
    lo ≤ mergeFieldInt v d lo hi := by
  cases v with
  | missing =>
    exact (roundJS_mem _ _ _ hlo hhi (le_clampQ _ _ _ h) (clampQ_le _ _ _)).1
  | nonNumeric =>
    exact (roundJS_mem lo lo lo hlo hlo le_rfl le_rfl).1
  | num q =>
    exact (roundJS_mem _ _ _ hlo hhi (le_clampQ _ _ _ h) (clampQ_le _ _ _)).1

theorem mergeFieldInt_le (v : RawVal) (d lo hi : ℚ)
    (hlo : ∃ k : ℤ, lo = k) (hhi : ∃ k : ℤ, hi = k) (h : lo ≤ hi) :
    mergeFieldInt v d lo hi ≤ hi := by
  cases v with
  | missing =>
    exact (roundJS_mem _ _ _ hlo hhi (le_clampQ _ _ _ h) (clampQ_le _ _ _)).2
  | nonNumeric =>
    exact le_trans (roundJS_mem lo lo lo hlo hlo le_rfl le_rfl).2 h
  | num q =>
    exact (roundJS_mem _ _ _ hlo hhi (le_clampQ _ _ _ h) (clampQ_le _ _ _)).2

theorem clamp01_nonneg (v : ℚ) : 0 ≤ clamp01 v :=
  by rw [clamp01, clampQ_eq]; exact le_min (le_max_right v 0) zero_le_one

theorem clamp01_le_one (v : ℚ) : clamp01 v ≤ 1 := by
  rw [clamp01, clampQ_eq]; exact min_le_right _ _

/-- The cross-field part of the clamp chain, for an object raw. -/
theorem mergeConfig_obj_cross (f : RawFields) :
    (mergeConfig (.obj f)).risk.minRiskPerTrade ≤ (mergeConfig (.obj f)).risk.maxRiskPerTrade
      ∧ (mergeConfig (.obj f)).regime.volLow ≤ (mergeConfig (.obj f)).regime.volHigh := by
  constructor
  · exact mergeField_le _ _ _ _
      (le_trans (by norm_num) (le_mergeField f.risk.maxRiskPerTrade (1/2) (1/100) 1 (by norm_num)))
  · exact le_mergeField _ _ _ _
      (le_trans (mergeField_le f.regime.volLow (1/100) (1/1000) 5 (by norm_num)) (by norm_num))

/-- Every clamp of `mergeConfig` lands in its bounds, for any raw
object. -/
theorem mergeConfig_obj_inBounds (f : RawFields) :
    configInBounds (mergeConfig (.obj f)) := by
  have hmaxRisk : (1:ℚ)/500 ≤ mergeField f.risk.maxRiskPerTrade (1/2) (1/100) 1 :=
    le_trans (by norm_num) (le_mergeField _ _ _ _ (by norm_num))
  have hvolLow : mergeField f.regime.volLow (1/100) (1/1000) 5 ≤ 10 :=
    le_trans (mergeField_le _ _ _ _ (by norm_num)) (by norm_num)
  refine ⟨?_, ?_, ?_, ?_, ?_, ?_, ?_, ?_, ?_, ?_, ?_, ?_, ?_, ?_, ?_, ?_, ?_, ?_,
    ?_, ?_, ?_, ?_, ?_, ?_, ?_, ?_, ?_, ?_, ?_, ?_, ?_, ?_, ?_, ?_, ?_, ?_,
    ?_, ?_, ?_, ?_, ?_, ?_, ?_, ?_, ?_, ?_, ?_, ?_⟩
  · exact le_mergeField _ _ _ _ (by norm_num)
  · exact mergeField_le _ _ _ _ (by norm_num)
  · exact le_mergeField _ _ _ _ (by norm_num)
  · exact mergeField_le _ _ _ _ (by norm_num)
  · exact le_mergeFieldInt _ _ _ _ ⟨50, by norm_num⟩ ⟨600, by norm_num⟩ (by norm_num)
  · exact mergeFieldInt_le _ _ _ _ ⟨50, by norm_num⟩ ⟨600, by norm_num⟩ (by norm_num)
  · exact le_mergeField _ _ _ _ (by norm_num)
  · exact mergeField_le _ _ _ _ (by norm_num)
  · exact le_mergeField _ _ _ _ hmaxRisk
  · exact mergeConfig_obj_cross f |>.1
  · exact le_mergeField _ _ _ _ (by norm_num)
  · exact mergeField_le _ _ _ _ (by norm_num)
  · exact le_mergeFieldInt _ _ _ _ ⟨1, by norm_num⟩ ⟨20, by norm_num⟩ (by norm_num)
  · exact mergeFieldInt_le _ _ _ _ ⟨1, by norm_num⟩ ⟨20, by norm_num⟩ (by norm_num)
  · exact le_mergeFieldInt _ _ _ _ ⟨1, by norm_num⟩ ⟨50, by norm_num⟩ (by norm_num)
  · exact mergeFieldInt_le _ _ _ _ ⟨1, by norm_num⟩ ⟨50, by norm_num⟩ (by norm_num)
  · exact le_mergeField _ _ _ _ (by norm_num)
  · exact mergeField_le _ _ _ _ (by norm_num)
  · exact le_mergeField _ _ _ _ (by norm_num)
  · exact mergeField_le _ _ _ _ (by norm_num)
  · exact le_mergeField _ _ _ _ (by norm_num)
  · exact mergeField_le _ _ _ _ (by norm_num)
  · exact le_mergeField _ _ _ _ (by norm_num)
  · exact mergeField_le _ _ _ _ (by norm_num)
  · exact le_mergeField _ _ _ _ (by norm_num)
  · exact mergeField_le _ _ _ _ (by norm_num)
  · exact le_mergeFieldInt _ _ _ _ ⟨5, by norm_num⟩ ⟨120, by norm_num⟩ (by norm_num)
  · exact mergeFieldInt_le _ _ _ _ ⟨5, by norm_num⟩ ⟨120, by norm_num⟩ (by norm_num)
  · exact le_mergeField _ _ _ _ (by norm_num)
  · exact mergeField_le _ _ _ _ (by norm_num)
  · exact le_mergeFieldInt _ _ _ _ ⟨2, by norm_num⟩ ⟨50, by norm_num⟩ (by norm_num)
  · exact mergeFieldInt_le _ _ _ _ ⟨2, by norm_num⟩ ⟨50, by norm_num⟩ (by norm_num)
  · exact le_mergeFieldInt _ _ _ _ ⟨2, by norm_num⟩ ⟨20, by norm_num⟩ (by norm_num)
  · exact mergeFieldInt_le _ _ _ _ ⟨2, by norm_num⟩ ⟨20, by norm_num⟩ (by norm_num)
  · exact le_mergeFieldInt _ _ _ _ ⟨2, by norm_num⟩ ⟨50, by norm_num⟩ (by norm_num)
  · exact mergeFieldInt_le _ _ _ _ ⟨2, by norm_num⟩ ⟨50, by norm_num⟩ (by norm_num)
  · exact le_mergeFieldInt _ _ _ _ ⟨10, by norm_num⟩ ⟨100, by norm_num⟩ (by norm_num)
  · exact mergeFieldInt_le _ _ _ _ ⟨10, by norm_num⟩ ⟨100, by norm_num⟩ (by norm_num)
  · exact le_mergeFieldInt _ _ _ _ ⟨2, by norm_num⟩ ⟨30, by norm_num⟩ (by norm_num)
  · exact mergeFieldInt_le _ _ _ _ ⟨2, by norm_num⟩ ⟨30, by norm_num⟩ (by norm_num)
  · exact le_mergeField _ _ _ _ (by norm_num)
  · exact mergeField_le _ _ _ _ (by norm_num)
  · exact mergeConfig_obj_cross f |>.2
  · exact mergeField_le _ _ _ _ hvolLow
  · exact le_mergeField _ _ _ _ (by norm_num)
  · exact mergeField_le _ _ _ _ (by norm_num)
  · exact le_mergeField _ _ _ _ (by norm_num)
  · exact mergeField_le _ _ _ _ (by norm_num)

/-! ## C10 -/

/-- C10: after every configuration load or save (both go through
`mergeConfig`), the returned StrategyConfig satisfies
`risk.minRiskPerTrade ≤ risk.maxRiskPerTrade` and
`regime.volLow ≤ regime.volHigh`, for arbitrary (even malformed)
raw input, because each dependent field is clamped using the other
field as its dynamic bound. -/
theorem C10_cross_field_invariant (raw : RawConfig) :
    ((mergeConfig raw).risk.minRiskPerTrade ≤ (mergeConfig raw).risk.maxRiskPerTrade
      ∧ (mergeConfig raw).regime.volLow ≤ (mergeConfig raw).regime.volHigh)
    ∧ ((saveThenLoad raw).risk.minRiskPerTrade ≤ (saveThenLoad raw).risk.maxRiskPerTrade
      ∧ (saveThenLoad raw).regime.volLow ≤ (saveThenLoad raw).regime.volHigh) := by
  constructor
  · cases raw with
    | invalid => exact ⟨by norm_num [mergeConfig, DEFAULT_CONFIG], by norm_num [mergeConfig, DEFAULT_CONFIG]⟩
    | obj f => exact mergeConfig_obj_cross f
  · exact mergeConfig_obj_cross _

/-! ## C7 -/

unseal Rat.add Rat.mul Rat.inv Rat.sub in
/-- C7 counterexample: the numeric field `risk.trailingSlMultiplier`
is copied through save-then-load unclamped — the raw input 999
survives verbatim, while the sibling `slAtrMultiplier`, clamped to
[0.5, 5], does not.  This refutes the claim that every numeric field
round-trips to a value within clamp bounds, never the raw input. -/
theorem C7_counterexample :
    (saveThenLoad rawTrail999).risk.trailingSlMultiplier = some 999
    ∧ (saveThenLoad rawTrail999).risk.slAtrMultiplier = 5 := by
  constructor <;> decide

unseal Rat.add Rat.mul Rat.inv Rat.sub in
/-- C7 as amended: for every raw configuration value (including
out-of-range, missing, or non-numeric fields), saving then loading
yields a config whose every numeric field OTHER THAN the unclamped
optional `risk.trailingSlMultiplier` lies within its documented clamp
bounds; in particular `allocationPerTrade = 5.0` round-trips to the
bound 1, not the raw input. -/
theorem C7_clamped_round_trip :
    (∀ raw : RawConfig, configInBounds (saveThenLoad raw))
    ∧ (saveThenLoad rawAllocEx).allocationPerTrade = 1
    ∧ (1 : ℚ) ≠ 5 := by
  refine ⟨fun raw => mergeConfig_obj_inBounds _, by decide, by norm_num⟩

/-! ## C8 -/

/-- C8: on every failure mode of the auto-tuner — missing external
API credential, advisory service or network error, or a
malformed/parameter-less advisory response — `autoTuneStrategy`
leaves the stored configuration unchanged, performs no save, and
returns `updated = false` with the current configuration. -/
theorem C8_tuner_failure_safe (store : RawConfig) (outcome : AdvisoryOutcome)
    (apiKeySet : Bool)
    (h : apiKeySet = false ∨ outcome = .fail ∨ outcome = .noParams) :
    autoTuneStrategy apiKeySet outcome store
      = ({ updated := false, consulted := false, config := mergeConfig store }, store) := by
  rcases h with h | h | h
  · subst h; rfl
  · subst h; cases apiKeySet <;> rfl
  · subst h; cases apiKeySet <;> rfl

/-- Witness for C8 at a concrete failing call. -/
theorem C8_tuner_failure_safe_witness :
    autoTuneStrategy true .fail rawAllocEx
      = ({ updated := false, consulted := false, config := mergeConfig rawAllocEx }, rawAllocEx) :=
  C8_tuner_failure_safe rawAllocEx .fail true (Or.inr (Or.inl rfl))

/-! ## C1 -/

unseal Rat.add Rat.mul Rat.inv Rat.sub in
/-- C1 counterexample: on the spec example — snapshots [100,110,95],
`maxDailyDrawdown = 0.10` — the computed drawdown −3/22 ≈ −0.136
breaches the limit, and the run halts before `checkOpenPositions`:
risk-exit management does NOT execute, refuting the claim that it
still runs on a breached day. -/
theorem C1_counterexample :
    computeDailyDrawdown [100, 110, 95] = some (-3/22)
    ∧ ((-3/22 : ℚ) ≤ -cfgDd.risk.maxDailyDrawdown)
    ∧ riskExitExecuted
        (cronRun [100, 110, 95] cfgDd [(tradeRisk, 95)] assetsEx [] buysEx buysEx 1000 40)
        = false := by
  refine ⟨by decide, by decide, by decide⟩

/-- C1 as amended: when the current day's snapshots yield a drawdown
at most `-maxDailyDrawdown`, the run logs a warning and returns at
once, skipping Phase A, Phase B AND the risk-exit management of open
positions (`checkOpenPositions` sits after the breaker and is never
reached). -/
theorem C1_drawdown_halts_run (snapshots : List ℚ) (cfg : StrategyConfig)
    (openTrades : List (OpenTrade × ℚ)) (assets : List AssetHolding)
    (sells buys analyses : List Signal) (totalUsdt bal dd : ℚ)
    (h1 : computeDailyDrawdown snapshots = some dd)
    (h2 : dd ≤ -cfg.risk.maxDailyDrawdown) :
    cronRun snapshots cfg openTrades assets sells buys analyses totalUsdt bal
      = .halted dd
    ∧ riskExitExecuted
        (cronRun snapshots cfg openTrades assets sells buys analyses totalUsdt bal)
      = false := by
  have hrun : cronRun snapshots cfg openTrades assets sells buys analyses totalUsdt bal
      = .halted dd := by
    unfold cronRun
    rw [h1]
    simp [h2]
  exact ⟨hrun, by rw [hrun]; rfl⟩

unseal Rat.add Rat.mul Rat.inv Rat.sub in
/-- Witness for C1 as amended, at the spec example. -/
theorem C1_drawdown_halts_run_witness :
    cronRun [100, 110, 95] cfgDd [(tradeRisk, 95)] assetsEx [] buysEx buysEx 1000 40
      = .halted (-3/22) :=
  (C1_drawdown_halts_run [100, 110, 95] cfgDd [(tradeRisk, 95)] assetsEx [] buysEx
    buysEx 1000 40 (-3/22) (by decide) (by decide)).1

/-! ## C5 -/

/-- A failed or short candle fetch yields no snapshot. -/
theorem fetchTf_eq_none {α : Type} (candles : Option (List α))
    (compute : List α → TimeframeData) (h : insufficientCandles candles) :
    fetchTf candles compute = none := by
  cases candles with
  | none => rfl
  | some cs =>
    simp only [insufficientCandles] at h
    simp [fetchTf, h]

/-- C5: for every pair, if fewer than 50 candles are available at any
of the three timeframes, or any timeframe fetch returns no data,
`analyzeMarket` short-circuits to HOLD with confidence 0, regime
"unknown" and zero component scores (a total result, not an error). -/
theorem C5_insufficient_data {α : Type} (sym : String)
    (hc mc lc : Option (List α)) (compute : List α → TimeframeData)
    (cfg : StrategyConfig)
    (h : insufficientCandles hc ∨ insufficientCandles mc ∨ insufficientCandles lc) :
    analyzeMarket sym hc mc lc compute cfg = insufficientResult sym
    ∧ (insufficientResult sym).action = .HOLD
    ∧ (insufficientResult sym).confidence = 0
    ∧ (insufficientResult sym).regime = "unknown"
    ∧ (insufficientResult sym).trendScore = 0
    ∧ (insufficientResult sym).momentumScore = 0
    ∧ (insufficientResult sym).volatilityScore = 0 := by
  refine ⟨?_, rfl, rfl, rfl, rfl, rfl, rfl⟩
  unfold analyzeMarket
  rcases h with h | h | h
  · rw [fetchTf_eq_none hc compute h]
    rfl
  · rw [fetchTf_eq_none mc compute h]
    cases fetchTf hc compute <;> rfl
  · rw [fetchTf_eq_none lc compute h]
    cases fetchTf hc compute <;> cases fetchTf mc compute <;> rfl

/-- Witness for C5 with 49 candles on the low timeframe. -/
theorem C5_insufficient_data_witness :
    insufficientCandles (some (List.replicate 49 (0:ℚ)))
    ∧ analyzeMarket "BTC/USDT" (some (List.replicate 60 (0:ℚ)))
        (some (List.replicate 60 (0:ℚ))) (some (List.replicate 49 (0:ℚ)))
        (fun _ => tfConst) DEFAULT_CONFIG
      = insufficientResult "BTC/USDT" :=
  ⟨by decide,
   (C5_insufficient_data "BTC/USDT" _ _ _ (fun _ => tfConst) DEFAULT_CONFIG
     (Or.inr (Or.inr (by decide)))).1⟩

/-! ## C6 -/

/-- The confidence assigned by `analyzeMarketCore` is the blend,
whatever action branch is taken. -/
theorem analyzeMarketCore_confidence (sym : String) (h m l : TimeframeData)
    (cfg : StrategyConfig) :
    (analyzeMarketCore sym h m l cfg).confidence
      = confidenceBlend (trendScoreOf h m l) (momentumScoreOf m l)
          (scoreVolatility l.atrPct cfg) := by
  unfold analyzeMarketCore
  dsimp only
  split_ifs <;> rfl

/-- C6: the signal confidence equals
`clamp01(0.4·trend + 0.4·momentum + 0.2·max(0, 1 − |volatility|))`,
and `0 ≤ confidence ≤ 1` holds for every result `analyzeMarket`
produces (both the scored and the short-circuit path). -/
theorem C6_confidence_formula_and_bounds (sym : String)
    (h m l : TimeframeData) (cfg : StrategyConfig) :
    (analyzeMarketCore sym h m l cfg).confidence
      = clamp01 (trendScoreOf h m l * (2/5) + momentumScoreOf m l * (2/5)
          + max 0 (1 - |scoreVolatility l.atrPct cfg|) * (1/5))
    ∧ (∀ ho mo lo : Option TimeframeData,
        0 ≤ (analyzeMarketOpt sym ho mo lo cfg).confidence
        ∧ (analyzeMarketOpt sym ho mo lo cfg).confidence ≤ 1) := by
  constructor
  · rw [analyzeMarketCore_confidence, confidenceBlend, maxQ_eq, absQ_eq]
  · intro ho mo lo
    cases ho with
    | none => exact ⟨le_refl 0, zero_le_one⟩
    | some htf =>
      cases mo with
      | none => exact ⟨le_refl 0, zero_le_one⟩
      | some mtf =>
        cases lo with
        | none => exact ⟨le_refl 0, zero_le_one⟩
        | some ltf =>
          show 0 ≤ (analyzeMarketCore sym htf mtf ltf cfg).confidence
            ∧ (analyzeMarketCore sym htf mtf ltf cfg).confidence ≤ 1
          rw [analyzeMarketCore_confidence, confidenceBlend]
          exact ⟨clamp01_nonneg _, clamp01_le_one _⟩

/-! ## C4 -/

/-- The BUY and SELL gates exclude each other: the Stochastic bounds
45 and 55 cannot both hold. -/
theorem buy_sell_exclusive (rsi stochK trend confidence : ℚ)
    (cfg : StrategyConfig) (hb : buySignal rsi stochK trend confidence cfg)
    (hs : sellSignal rsi stochK trend confidence cfg) : False := by
  have h1 := hb.2.1
  have h2 := hs.2.1
  linarith

/-- The action of `analyzeMarketCore` is the factored-out decision on
the low-timeframe RSI and Stochastic %K and the derived trend score
and confidence. -/
theorem analyzeMarketCore_action (sym : String) (h m l : TimeframeData)
    (cfg : StrategyConfig) :
    (analyzeMarketCore sym h m l cfg).action
      = decideAction l.rsi l.stochK (trendScoreOf h m l)
          (confidenceBlend (trendScoreOf h m l) (momentumScoreOf m l)
            (scoreVolatility l.atrPct cfg)) cfg := by
  unfold analyzeMarketCore decideAction
  dsimp only
  split_ifs <;> rfl

unseal Rat.add Rat.mul Rat.inv Rat.sub in
/-- C4: for every analyzed pair with sufficient data the action is
BUY exactly when the low-timeframe RSI is under rsiBuy and Stochastic
%K under 45 and trend score above the threshold and confidence above
the floor;
SELL exactly under the mirrored conditions; HOLD otherwise — and the
spec instance RSI 20, StochK 30, trendScore 0.8, confidence 0.6 with
rsiBuy 35, trendThresh 0.3, confidenceFloor 0.35 decides BUY. -/
theorem C4_action_characterization (sym : String) (h m l : TimeframeData)
    (cfg : StrategyConfig) :
    ((analyzeMarketCore sym h m l cfg).action = .BUY
      ↔ buySignal l.rsi l.stochK (trendScoreOf h m l)
          (confidenceBlend (trendScoreOf h m l) (momentumScoreOf m l)
            (scoreVolatility l.atrPct cfg)) cfg)
    ∧ ((analyzeMarketCore sym h m l cfg).action = .SELL
      ↔ sellSignal l.rsi l.stochK (trendScoreOf h m l)
          (confidenceBlend (trendScoreOf h m l) (momentumScoreOf m l)
            (scoreVolatility l.atrPct cfg)) cfg)
    ∧ ((analyzeMarketCore sym h m l cfg).action = .HOLD
      ↔ (¬ buySignal l.rsi l.stochK (trendScoreOf h m l)
            (confidenceBlend (trendScoreOf h m l) (momentumScoreOf m l)
              (scoreVolatility l.atrPct cfg)) cfg
          ∧ ¬ sellSignal l.rsi l.stochK (trendScoreOf h m l)
            (confidenceBlend (trendScoreOf h m l) (momentumScoreOf m l)
              (scoreVolatility l.atrPct cfg)) cfg))
    ∧ decideAction 20 30 (8/10) (6/10) cfgBuyEx = .BUY := by
  rw [analyzeMarketCore_action sym h m l cfg]
  set t := trendScoreOf h m l with hts
  set c := confidenceBlend (trendScoreOf h m l) (momentumScoreOf m l)
    (scoreVolatility l.atrPct cfg) with hcs
  refine ⟨?_, ?_, ?_, ?_⟩
  · unfold decideAction
    by_cases hb : buySignal l.rsi l.stochK t c cfg
    · simp [hb]
    · by_cases hs : sellSignal l.rsi l.stochK t c cfg <;> simp [hb, hs]
  · unfold decideAction
    by_cases hb : buySignal l.rsi l.stochK t c cfg
    · have : ¬ sellSignal l.rsi l.stochK t c cfg :=
        fun hs => buy_sell_exclusive _ _ _ _ _ hb hs
      simp [hb, this]
    · by_cases hs : sellSignal l.rsi l.stochK t c cfg <;> simp [hb, hs]
  · unfold decideAction
    by_cases hb : buySignal l.rsi l.stochK t c cfg
    · simp [hb]
    · by_cases hs : sellSignal l.rsi l.stochK t c cfg <;> simp [hb, hs]
  · show decideAction 20 30 (8/10) (6/10) cfgBuyEx = .BUY
    decide

/-! ## C3 -/

unseal Rat.add Rat.mul Rat.inv Rat.sub in
/-- C3 counterexample: with entry 100, stored stop-loss 90, trailing
multiplier 4 and slAtrMultiplier 2, the trailing level is 80; at
current price 85 the trailing stop does not fire, yet the position is
closed by the FIXED stop-loss check (reason "stop loss") — refuting
the claim that fixed levels are checked only when no trailing-stop
multiplier is configured. -/
theorem C3_counterexample :
    checkPosition cfgTrail tradeRisk 85 = (some .stopLoss, 100)
    ∧ cfgTrail.risk.trailingSlMultiplier = some 4
    ∧ ¬ ((85 : ℚ) < 100 - (100 - 90) * (4 / cfgTrail.risk.slAtrMultiplier)) := by
  refine ⟨by decide, by decide, by decide⟩

/-- C3 as amended: with a stored (nonzero) stop-loss and a configured
(nonzero) trailing multiplier, the high-water mark is first raised to
the current price if higher; the trail distance is
`(entryPrice − stopLossPrice) × (trailingMultiplier / slAtrMultiplier)`;
the trade closes as "trailing stop" when the current price is below
`highWaterMark − trailDistance`; and whenever the trailing stop did
NOT fire — including when it is configured — the fixed levels are
checked next: close "stop loss" at current ≤ stop-loss, else "take
profit" at current ≥ take-profit.  Without a configured trailing
multiplier only the fixed levels are checked. -/
theorem C3_risk_exit_levels :
    (∀ (cfg : StrategyConfig) (trade : OpenTrade) (current sl t : ℚ),
      current ≠ 0 → trade.sl_price = some sl → sl ≠ 0 →
      cfg.risk.trailingSlMultiplier = some t → t ≠ 0 →
      ∀ hwm level : ℚ,
        hwm = (if current > jsOrQ trade.highest_price trade.price then current
               else jsOrQ trade.highest_price trade.price) →
        level = hwm - (trade.price - sl) * (t / cfg.risk.slAtrMultiplier) →
        (current < level →
          checkPosition cfg trade current = (some .trailingStop, hwm))
        ∧ (¬ current < level → current ≤ sl →
            checkPosition cfg trade current = (some .stopLoss, hwm))
        ∧ (¬ current < level → ¬ current ≤ sl →
            checkPosition cfg trade current
              = (if truthy trade.tp_price ∧ current ≥ jsOrQ trade.tp_price 0
                 then some .takeProfit else none, hwm)))
    ∧ (∀ (cfg : StrategyConfig) (trade : OpenTrade) (current sl : ℚ),
      current ≠ 0 → trade.sl_price = some sl → sl ≠ 0 →
      cfg.risk.trailingSlMultiplier = none →
      ∀ hwm : ℚ,
        hwm = (if current > jsOrQ trade.highest_price trade.price then current
               else jsOrQ trade.highest_price trade.price) →
        (current ≤ sl →
          checkPosition cfg trade current = (some .stopLoss, hwm))
        ∧ (¬ current ≤ sl →
            checkPosition cfg trade current
              = (if truthy trade.tp_price ∧ current ≥ jsOrQ trade.tp_price 0
                 then some .takeProfit else none, hwm))) := by
  constructor
  · intro cfg trade current sl t hc hsl hsl0 hcfg ht hwm level hhwm hlevel
    have hjsl : jsOrQ trade.sl_price (trade.price * (19/20)) = sl := by
      rw [hsl]; simp [jsOrQ, hsl0]
    have htr : truthy trade.sl_price := by rw [hsl]; exact hsl0
    refine ⟨?_, ?_, ?_⟩
    · intro hlt
      simp only [checkPosition, if_neg hc, hcfg, hjsl, if_neg ht, ← hhwm, ← hlevel]
      rw [if_pos (by simpa using hlt)]
    · intro hnlt hle
      simp only [checkPosition, if_neg hc, hcfg, hjsl, if_neg ht, ← hhwm, ← hlevel]
      rw [if_neg (by simpa using hnlt), if_pos ⟨htr, by rw [hsl]; simpa [jsOrQ, hsl0] using hle⟩]
    · intro hnlt hnle
      simp only [checkPosition, if_neg hc, hcfg, hjsl, if_neg ht, ← hhwm, ← hlevel]
      rw [if_neg (by simpa using hnlt),
        if_neg (fun hh => hnle (by rw [hsl] at hh; simpa [jsOrQ, hsl0] using hh.2))]
      split_ifs <;> rfl
  · intro cfg trade current sl hc hsl hsl0 hcfg hwm hhwm
    have htr : truthy trade.sl_price := by rw [hsl]; exact hsl0
    refine ⟨?_, ?_⟩
    · intro hle
      simp only [checkPosition, if_neg hc, hcfg, ← hhwm]
      rw [if_neg (by simp), if_pos ⟨htr, by rw [hsl]; simpa [jsOrQ, hsl0] using hle⟩]
    · intro hnle
      simp only [checkPosition, if_neg hc, hcfg, ← hhwm]
      rw [if_neg (by simp),
        if_neg (fun hh => hnle (by rw [hsl] at hh; simpa [jsOrQ, hsl0] using hh.2))]
      split_ifs <;> rfl

unseal Rat.add Rat.mul Rat.inv Rat.sub in
/-- Witness for C3 as amended: the trailing branch at a concrete
trade where the trailing level is not reached and the price sits
above the stop-loss, so no close is chosen. -/
theorem C3_risk_exit_levels_witness :
    checkPosition cfgTrail tradeRisk 95 = (none, 100) := by
  have h := (C3_risk_exit_levels.1 cfgTrail tradeRisk 95 90 4 (by decide) (by decide)
    (by decide) (by decide) (by decide) 100 80 (by decide) (by decide)).2.2
    (by decide) (by decide)
  simpa using h

/-! ## C2 -/

/-- Step A is precisely the spec description: one liquidation per
qualifying SELL signal, with every proceed credited to the running
balance. -/
theorem phaseA_spec (assets : List AssetHolding) (minTrade : ℚ) :
    ∀ (sells : List Signal) (bal : ℚ),
      phaseA assets minTrade sells bal
        = (bal + (sells.map (phaseAProceeds assets minTrade)).sum,
           specPhaseAResults assets minTrade sells) := by
  intro sells
  induction sells with
  | nil => intro bal; simp [phaseA, specPhaseAResults]
  | cons s rest ih =>
    intro bal
    simp only [phaseA, specPhaseAResults, List.map_cons, List.sum_cons,
      List.filterMap_cons]
    cases hf : assets.find? (fun a => a.asset = baseAssetOf s.symbol) with
    | none =>
      rw [ih bal]
      simp [phaseAProceeds, specPhaseAResults, hf]
    | some a =>
      by_cases hv : a.usdtValue > minTrade
      · simp only [if_pos hv]
        rw [ih (bal + a.usdtValue)]
        simp only [phaseAProceeds, specPhaseAResults, hf, if_pos hv]
        exact Prod.ext (by ring) rfl
      · simp only [if_neg hv]
        rw [ih bal]
        simp [phaseAProceeds, specPhaseAResults, hf, hv]

theorem insertLe_perm {α : Type} (le : α → α → Bool) (x : α) (l : List α) :
    (insertLe le x l).Perm (x :: l) := by
  induction l with
  | nil => exact List.Perm.refl _
  | cons y ys ih =>
    unfold insertLe
    by_cases h : le y x
    · rw [if_pos h]
      exact (ih.cons y).trans (List.Perm.swap x y ys)
    · rw [if_neg h]

theorem foldl_insertLe_perm {α : Type} (le : α → α → Bool) :
    ∀ (l acc : List α),
      (l.foldl (fun acc x => insertLe le x acc) acc).Perm (acc ++ l) := by
  intro l
  induction l with
  | nil => intro acc; simp
  | cons x xs ih =>
    intro acc
    simp only [List.foldl_cons]
    refine (ih (insertLe le x acc)).trans ?_
    refine ((insertLe_perm le x acc).append_right xs).trans ?_
    exact List.perm_middle.symm

theorem stableSortBy_perm {α : Type} (le : α → α → Bool) (l : List α) :
    (stableSortBy le l).Perm l := by
  simpa [stableSortBy] using foldl_insertLe_perm le l []

theorem insertLe_pairwise {α : Type} (le : α → α → Bool)
    (htot : ∀ a b, le a b = true ∨ le b a = true)
    (htrans : ∀ a b c, le a b = true → le b c = true → le a c = true)
    (x : α) (l : List α) (h : l.Pairwise (fun a b => le a b = true)) :
    (insertLe le x l).Pairwise (fun a b => le a b = true) := by
  induction l with
  | nil => simp [insertLe]
  | cons y ys ih =>
    rw [List.pairwise_cons] at h
    unfold insertLe
    by_cases hyx : le y x
    · rw [if_pos hyx, List.pairwise_cons]
      refine ⟨fun z hz => ?_, ih h.2⟩
      rcases List.mem_cons.mp ((insertLe_perm le x ys).mem_iff.mp hz) with hzx | hzys
      · rw [hzx]; exact hyx
      · exact h.1 z hzys
    · rw [if_neg hyx, List.pairwise_cons]
      have hxy : le x y = true := (htot x y).resolve_right (by simpa using hyx)
      refine ⟨fun z hz => ?_, List.pairwise_cons.mpr h⟩
      rcases List.mem_cons.mp hz with hzy | hzys
      · rw [hzy]; exact hxy
      · exact htrans x y z hxy (h.1 z hzys)

theorem stableSortBy_pairwise {α : Type} (le : α → α → Bool)
    (htot : ∀ a b, le a b = true ∨ le b a = true)
    (htrans : ∀ a b c, le a b = true → le b c = true → le a c = true)
    (l : List α) :
    (stableSortBy le l).Pairwise (fun a b => le a b = true) := by
  have haux : ∀ (l acc : List α), acc.Pairwise (fun a b => le a b = true) →
      (l.foldl (fun acc x => insertLe le x acc) acc).Pairwise
        (fun a b => le a b = true) := by
    intro l
    induction l with
    | nil => intro acc hacc; simpa using hacc
    | cons x xs ih =>
      intro acc hacc
      simp only [List.foldl_cons]
      exact ih _ (insertLe_pairwise le htot htrans x acc hacc)
  exact haux l [] (by simp)

unseal Rat.add Rat.mul Rat.inv Rat.sub in
/-- C2: the execution pass follows the specified two-phase algorithm:
step A liquidates exactly the SELL signals whose held value exceeds
the minimum notional and credits the proceeds to the running balance;
step B walks the BUY signals in descending confidence order (a stable
sort of the signal list), holds at ≥90% target coverage, skips a need
below the minimum notional, and on the spec funding example —
total 1000, allocation 0.1, balance 40, one weak holding worth 80 at
confidence 0 — liquidates the weak holding and buys 100, leaving 20. -/
theorem C2_two_phase_execution :
    (∀ (assets : List AssetHolding) (minTrade : ℚ) (sells : List Signal) (bal : ℚ),
      phaseA assets minTrade sells bal
        = (bal + (sells.map (phaseAProceeds assets minTrade)).sum,
           specPhaseAResults assets minTrade sells))
    ∧ (∀ buys : List Signal,
        (stableSortBy (fun x y => y.confidence ≤ x.confidence) buys).Perm buys
        ∧ (stableSortBy (fun x y => y.confidence ≤ x.confidence) buys).Pairwise
            (fun a b => b.confidence ≤ a.confidence))
    ∧ (∀ (totalUsdt alloc minTrade : ℚ) (assets : List AssetHolding)
        (buys analyses : List Signal) (s : Signal) (bal : ℚ),
        currentHoldingValue assets s.symbol ≥ totalUsdt * alloc * (9/10) →
        phaseBStep totalUsdt alloc minTrade assets buys analyses s bal
          = (bal, [.holdAtTarget s.symbol]))
    ∧ (∀ (totalUsdt alloc minTrade : ℚ) (assets : List AssetHolding)
        (buys analyses : List Signal) (s : Signal) (bal : ℚ),
        ¬ currentHoldingValue assets s.symbol ≥ totalUsdt * alloc * (9/10) →
        totalUsdt * alloc - currentHoldingValue assets s.symbol < minTrade →
        phaseBStep totalUsdt alloc minTrade assets buys analyses s bal = (bal, []))
    ∧ executePass 1000 (1/10) 10 assetsEx [] buysEx buysEx 40
        = (20, [.liquidate "BBB/USDT" "AAA/USDT" 80, .buyOrder "AAA/USDT" 100]) := by
  refine ⟨phaseA_spec, fun buys => ⟨stableSortBy_perm _ buys, ?_⟩, ?_, ?_, by decide⟩
  · have h := stableSortBy_pairwise (fun x y : Signal => y.confidence ≤ x.confidence)
      (fun a b => by
        rcases le_total b.confidence a.confidence with h | h
        · exact Or.inl (decide_eq_true h)
        · exact Or.inr (decide_eq_true h))
      (fun a b c hab hbc => decide_eq_true
        (le_trans (of_decide_eq_true hbc) (of_decide_eq_true hab)))
      buys
    exact h.imp fun hle => of_decide_eq_true hle
  · intro totalUsdt alloc minTrade assets buys analyses s bal hcov
    unfold phaseBStep
    rw [if_pos hcov]
  · intro totalUsdt alloc minTrade assets buys analyses s bal hcov hneed
    unfold phaseBStep
    rw [if_neg hcov, if_pos hneed]

unseal Rat.add Rat.mul Rat.inv Rat.sub in
/-- Witness for C2 at a holding already covering 95% of its target:
the step-B hold-at-target branch fires. -/
theorem C2_two_phase_execution_witness :
    phaseBStep 1000 (1/10) 10 assetsAtTarget buysEx buysEx sigEx 40
      = (40, [.holdAtTarget "AAA/USDT"]) := by
  have h := C2_two_phase_execution.2.2.1 1000 (1/10) 10 assetsAtTarget buysEx
    buysEx sigEx 40 (by decide)
  simpa [sigEx] using h

/-! ## C9 -/

/-- The pick loop appends candidate symbols after the held prefix. -/
theorem pickLoop_append (limit : ℚ) :
    ∀ (cands : List PairInfo) (picked : List String),
      ∃ rest, pickLoop limit cands picked = picked ++ rest
        ∧ ∀ s ∈ rest, s ∈ cands.map PairInfo.symbol := by
  intro cands
  induction cands with
  | nil => exact fun picked => ⟨[], by simp [pickLoop], by simp⟩
  | cons c cs ih =>
    intro picked
    unfold pickLoop
    by_cases hl : (picked.length : ℚ) ≥ limit
    · rw [if_pos hl]; exact ⟨[], by simp, by simp⟩
    · rw [if_neg hl]
      by_cases hm : c.symbol ∈ picked
      · rw [if_pos hm]
        obtain ⟨rest, h1, h2⟩ := ih picked
        exact ⟨rest, h1, fun s hs => List.mem_cons.mpr (Or.inr (h2 s hs))⟩
      · rw [if_neg hm]
        obtain ⟨rest, h1, h2⟩ := ih (picked ++ [c.symbol])
        refine ⟨c.symbol :: rest, by rw [h1, List.append_assoc]; rfl, ?_⟩
        intro s hs
        rcases List.mem_cons.mp hs with hsc | hsr
        · rw [hsc]; exact List.mem_cons_self _ _
        · exact List.mem_cons.mpr (Or.inr (h2 s hsr))

/-- The pick loop adds candidates only while the picked length is
under the limit, so its output is bounded by the larger of the
initial length and the rounded-up limit. -/
theorem pickLoop_length (limit : ℚ) :
    ∀ (cands : List PairInfo) (picked : List String),
      (pickLoop limit cands picked).length ≤ max picked.length ⌈limit⌉₊ := by
  intro cands
  induction cands with
  | nil => intro picked; simp [pickLoop]
  | cons c cs ih =>
    intro picked
    unfold pickLoop
    by_cases hl : (picked.length : ℚ) ≥ limit
    · rw [if_pos hl]; exact le_max_left _ _
    · rw [if_neg hl]
      by_cases hm : c.symbol ∈ picked
      · rw [if_pos hm]; exact ih picked
      · rw [if_neg hm]
        refine le_trans (ih (picked ++ [c.symbol])) ?_
        have hlen : picked.length + 1 ≤ ⌈limit⌉₊ := by
          have h1 : (picked.length : ℚ) < limit := not_le.mp hl
          have h2 : (picked.length : ℚ) < (⌈limit⌉₊ : ℚ) :=
            lt_of_lt_of_le h1 (Nat.le_ceil limit)
          exact_mod_cast h2
        rw [List.length_append]
        simp only [List.length_singleton]
        rw [max_eq_right hlen]
        exact le_max_right _ _

unseal Rat.add Rat.mul Rat.inv Rat.sub in
/-- C9 counterexample: with `maxPairs = 1` (so the cap is
`min(1, 12) = 1`) and three held balances, the selector returns all
three held symbols — the result exceeds the claimed
`min(config.maxPairs, hard cap)` bound, because held pairs are
seeded into the result before the limit is consulted. -/
theorem C9_counterexample :
    selectTradablePairs (some (heldThree, [])) 5000000 (1/400) cfgOnePair
      = ["AAA/USDT", "BBB/USDT", "CCC/USDT"]
    ∧ minQ cfgOnePair.risk.maxPairs DEFAULT_MAX_RESULTS = 1
    ∧ ¬ ((["AAA/USDT", "BBB/USDT", "CCC/USDT"] : List String).length ≤ 1) := by
  refine ⟨by decide, by decide, by decide⟩

/-- C9 as amended: a failed ticker/balance retrieval falls back to
the configured static pair list; otherwise the result is the held
symbols (order preserved) followed by top filtered candidates, drawn
from the volume-descending sorted list, with only the candidate
additions limited by `min(config.maxPairs, hard cap)` — the length is
bounded by the larger of the held count and that cap — and the
returned universe is never empty when the configured list is not. -/
theorem C9_pair_selector :
    (∀ (volumeThresh spreadThresh : ℚ) (cfg : StrategyConfig),
      selectTradablePairs none volumeThresh spreadThresh cfg = cfg.pairs)
    ∧ (∀ (bal : List (String × ℚ)) (tickers : List (String × Ticker))
        (volumeThresh spreadThresh : ℚ) (cfg : StrategyConfig),
        (heldPairsOf bal = []
          ∧ selectTradablePairs (some (bal, tickers)) volumeThresh spreadThresh cfg
              = cfg.pairs)
        ∨ ∃ rest,
            selectTradablePairs (some (bal, tickers)) volumeThresh spreadThresh cfg
              = heldPairsOf bal ++ rest
            ∧ ∀ s ∈ rest,
                s ∈ (sortedCandidates tickers volumeThresh spreadThresh cfg).map
                  PairInfo.symbol)
    ∧ (∀ (bal : List (String × ℚ)) (tickers : List (String × Ticker))
        (volumeThresh spreadThresh : ℚ) (cfg : StrategyConfig),
        selectTradablePairs (some (bal, tickers)) volumeThresh spreadThresh cfg
          = cfg.pairs
        ∨ (selectTradablePairs (some (bal, tickers)) volumeThresh spreadThresh cfg).length
            ≤ max (heldPairsOf bal).length ⌈minQ cfg.risk.maxPairs DEFAULT_MAX_RESULTS⌉₊)
    ∧ (∀ (tickers : List (String × Ticker)) (volumeThresh spreadThresh : ℚ)
        (cfg : StrategyConfig),
        (sortedCandidates tickers volumeThresh spreadThresh cfg).Pairwise
          (fun a b => b.volume ≤ a.volume))
    ∧ (∀ (fetched : Option (List (String × ℚ) × List (String × Ticker)))
        (volumeThresh spreadThresh : ℚ) (cfg : StrategyConfig),
        cfg.pairs ≠ [] →
        selectTradablePairs fetched volumeThresh spreadThresh cfg ≠ []) := by
  refine ⟨fun _ _ _ => rfl, ?_, ?_, ?_, ?_⟩
  · intro bal tickers volumeThresh spreadThresh cfg
    obtain ⟨rest, h1, h2⟩ := pickLoop_append
      (minQ cfg.risk.maxPairs DEFAULT_MAX_RESULTS)
      (sortedCandidates tickers volumeThresh spreadThresh cfg) (heldPairsOf bal)
    unfold selectTradablePairs
    dsimp only
    rw [h1]
    by_cases hn : (heldPairsOf bal ++ rest).length > 0
    · rw [if_pos hn]
      exact Or.inr ⟨rest, rfl, h2⟩
    · rw [if_neg hn]
      have : heldPairsOf bal ++ rest = [] := by
        simpa using List.length_eq_zero.mp (Nat.eq_zero_of_not_pos hn)
      exact Or.inl ⟨(List.append_eq_nil.mp this).1, rfl⟩
  · intro bal tickers volumeThresh spreadThresh cfg
    unfold selectTradablePairs
    dsimp only
    by_cases hn : (pickLoop (minQ cfg.risk.maxPairs DEFAULT_MAX_RESULTS)
        (sortedCandidates tickers volumeThresh spreadThresh cfg)
        (heldPairsOf bal)).length > 0
    · rw [if_pos hn]
      exact Or.inr (pickLoop_length _ _ _)
    · rw [if_neg hn]
      exact Or.inl rfl
  · intro tickers volumeThresh spreadThresh cfg
    have h := stableSortBy_pairwise (fun a b : PairInfo => b.volume ≤ a.volume)
      (fun a b => by
        rcases le_total b.volume a.volume with h | h
        · exact Or.inl (decide_eq_true h)
        · exact Or.inr (decide_eq_true h))
      (fun a b c hab hbc => decide_eq_true
        (le_trans (of_decide_eq_true hbc) (of_decide_eq_true hab)))
      (filteredCandidates tickers volumeThresh spreadThresh cfg)
    exact h.imp fun hle => of_decide_eq_true hle
  · intro fetched volumeThresh spreadThresh cfg hp
    cases fetched with
    | none => exact hp
    | some bt =>
      unfold selectTradablePairs
      dsimp only
      by_cases hn : (pickLoop (minQ cfg.risk.maxPairs DEFAULT_MAX_RESULTS)
          (sortedCandidates bt.2 volumeThresh spreadThresh cfg)
          (heldPairsOf bt.1)).length > 0
      · rw [if_pos hn]
        exact List.ne_nil_of_length_pos hn
      · rw [if_neg hn]
        exact hp

unseal Rat.add Rat.mul Rat.inv Rat.sub in
/-- Witness for C9 as amended: the fallback universe of a failed
fetch is non-empty for the default configuration. -/
theorem C9_pair_selector_witness :
    selectTradablePairs none 5000000 (1/400) DEFAULT_CONFIG ≠ [] :=
  C9_pair_selector.2.2.2.2 none 5000000 (1/400) DEFAULT_CONFIG (by decide)

end Gembin
